import Mathlib

/-!
Verification of the conversational-retrieval workflow of `app.py`, a
Streamlit chat assistant backed by Snowflake Cortex.

Python strings are modelled as `List Char`.  Remote query execution is
modelled by an environment (`Env`) of query outcomes: each outcome is either
rows fetched or a raised exception, exactly the two cases the source's
`try`/`except` blocks distinguish.  Every function that issues queries also
returns the list of queries it issued, so that purity claims and
quote-escaping claims can be stated about the query log.
-/

namespace ChatApp

set_option maxRecDepth 8000

/-- The single-quote character, written via its code point. -/
def quoteChar : Char := Char.ofNat 39

/-- Python `s.replace(old, new)` for a one-character pattern `old`:
every occurrence of the character is replaced by `new`. -/
def replaceChar (s : List Char) (old : Char) (new : List Char) : List Char :=
  match s with
  | [] => []
  | c :: rest =>
      if c = old then new ++ replaceChar rest old new
      else c :: replaceChar rest old new

/-- `beginsWith small big` holds when `small` is an initial run of `big`. -/
def beginsWith : List Char → List Char → Bool
  | [], _ => true
  | _ :: _, [] => false
  | a :: s, b :: t => a = b && beginsWith s t

/-- `hasSub small big` holds when `small` occurs contiguously inside `big`. -/
def hasSub (small : List Char) : List Char → Bool
  | [] => beginsWith small []
  | b :: t => beginsWith small (b :: t) || hasSub small t

/-- Decimal rendering of a natural number, as Python's f-string does. -/
def natStr (n : Nat) : List Char := (Nat.repr n).toList

/-- app.py line 38: `num_chunks = 3`. -/
def num_chunks : Nat := 3

/-- app.py line 39: `slide_window = 7`. -/
def slide_window : Nat := 7

/-- A chat message: `{"role": ..., "content": ...}`. -/
inductive Role where
  | user
  | assistant
  deriving DecidableEq

/-- One entry of `st.session_state.messages`. -/
structure Message where
  role : Role
  content : List Char
  deriving DecidableEq

/-- One row fetched by the similarity query: `(chunk, relative_path)`. -/
structure Row where
  chunk : List Char
  relative_path : List Char
  deriving DecidableEq

/-- One row fetched by a `snowflake.cortex.complete` query: the `RESPONSE`
column. -/
structure RespRow where
  response : List Char
  deriving DecidableEq

/-- The outcome of executing one remote query: the fetched rows, or the
exception raised (`except Exception as e` in the source). -/
inductive QueryOutcome (α : Type) where
  | ok (rows : List α)
  | err (msg : List Char)
  deriving DecidableEq

/-- A query issued to the warehouse: a similarity-search statement (recorded
with the text interpolated into its question slot) or a completion statement
(recorded as the full command). -/
inductive Query where
  | retrieval (question : List Char)
  | completion (cmd : List Char)
  deriving DecidableEq

/-- The sidebar configuration: selected model, the two checkboxes. -/
structure Config where
  model_name : List Char
  use_chat_history : Bool
  debug : Bool
  deriving DecidableEq

/-- The remote service's behaviour for the (at most) three queries one chat
turn can issue: the summarization completion, the similarity search, and the
final answer completion. -/
structure Env where
  summarizeOutcome : QueryOutcome RespRow
  retrievalOutcome : QueryOutcome Row
  completionOutcome : QueryOutcome RespRow
  deriving DecidableEq

/-- app.py lines 147-149, `init_messages`: the conversation is reset to `[]`
when the Start Over button was pressed or no conversation exists yet. -/
def init_messages (clear_conversation : Bool) (messages : Option (List Message)) :
    List Message :=
  match clear_conversation, messages with
  | true, _ => []
  | false, none => []
  | false, some ms => ms

/-- app.py lines 179-185, `get_chat_history`: iterate
`range(max(0, len(messages) - slide_window), len(messages) - 1)` and collect
`messages[i]["content"]` (Nat subtraction performs Python's `max(0, ...)`,
and `range n` is empty for Python's negative stop). -/
def get_chat_history (messages : List Message) : List (List Char) :=
  ((List.range (messages.length - 1)).drop (messages.length - slide_window)).filterMap
    (fun i => (messages[i]?).map Message.content)

/-- The literal before `{question}` in the similarity command (app.py
lines 153-157). -/
def simCmdPre : List Char :=
  ("\n        WITH results AS (\n            SELECT RELATIVE_PATH, \n            VECTOR_COSINE_SIMILARITY(docs_chunks_table.chunk_vec, \n            SNOWFLAKE.CORTEX.EMBED_TEXT_768('e5-base-v2', '").toList

/-- The literal between `{question}` and `{num_chunks}` in the similarity
command (app.py lines 157-161). -/
def simCmdMid : List Char :=
  ("')) AS similarity, \n            chunk\n            FROM docs_chunks_table\n            ORDER BY similarity DESC\n            LIMIT ").toList

/-- The literal after `{num_chunks}` in the similarity command (app.py
lines 161-164). -/
def simCmdPost : List Char :=
  ("\n        )\n        SELECT chunk, relative_path FROM results\n    ").toList

/-- app.py lines 153-164: the f-string building the similarity-ranking SQL
statement. -/
def get_similar_chunks_cmd (question : List Char) : List Char :=
  simCmdPre ++ question ++ simCmdMid ++ natStr num_chunks ++ simCmdPost

/-- pandas `Series.replace(old, new)` with scalar arguments: whole-value
replacement of each element equal to `old` by `new` (not substring search). -/
def pandasReplaceValue (vals : List (List Char)) (old new : List Char) :
    List (List Char) :=
  vals.map (fun v => if v = old then new else v)

/-- app.py lines 151-173, `get_similar_chunks`: issue the ranking query; on
success return `"".join(df_chunks['CHUNK'].replace("'", ""))`, on a raised
exception show the error and return the empty string.  The second component
is the query log. -/
def get_similar_chunks (env : Env) (question : List Char) :
    List Char × List Query :=
  match env.retrievalOutcome with
  | QueryOutcome.err _ => ([], [Query.retrieval question])
  | QueryOutcome.ok rows =>
      ((pandasReplaceValue (rows.map Row.chunk) [quoteChar] []).flatten,
        [Query.retrieval question])

/-- Two single quotes, the SQL escape written by `.replace("'", "''")`. -/
def twoQuotes : List Char := [quoteChar, quoteChar]

/-- The literal before `{chat_history_str}` in the summarization prompt
(app.py lines 197-202). -/
def sumPromptPre : List Char :=
  ("\n        Based on the chat history below and the question, generate a query that extends the question\n        with the chat history provided. The query should be in natural language. \n        Answer with only the query. Do not add any explanation.\n        \n        <chat_history>\n        ").toList

/-- The literal between `{chat_history_str}` and `{question}` in the
summarization prompt (app.py lines 203-206). -/
def sumPromptMid : List Char :=
  ("\n        </chat_history>\n        <question>\n        ").toList

/-- The literal after `{question}` in the summarization prompt (app.py
lines 207-208). -/
def sumPromptPost : List Char :=
  ("\n        </question>\n    ").toList

/-- app.py lines 197-208: the summarization prompt f-string. -/
def summarize_prompt (chat_history_str question : List Char) : List Char :=
  sumPromptPre ++ chat_history_str ++ sumPromptMid ++ question ++ sumPromptPost

/-- app.py lines 211 and 287: the completion SQL statement
`SELECT snowflake.cortex.complete('<model>', '<prompt>') AS response`. -/
def complete_cmd (model_name prompt : List Char) : List Char :=
  ("SELECT snowflake.cortex.complete('").toList ++ model_name ++
    ("', '").toList ++ prompt ++ ("') AS response").toList

/-- app.py lines 189-231, `summarize_question_with_history`: escape quotes in
the joined history and the question, build the summarization prompt, issue
one completion query; return the first row's `RESPONSE` with single quotes
stripped, or the empty string when no rows came back or the query raised. -/
def summarize_question_with_history (cfg : Config) (env : Env)
    (chat_history : List (List Char)) (question : List Char) :
    List Char × List Query :=
  let chat_history_str :=
    replaceChar (List.intercalate (" ").toList chat_history) quoteChar twoQuotes
  let question2 := replaceChar question quoteChar twoQuotes
  let prompt := summarize_prompt chat_history_str question2
  let cmd := complete_cmd cfg.model_name prompt
  match env.summarizeOutcome with
  | QueryOutcome.err _ => ([], [Query.completion cmd])
  | QueryOutcome.ok [] => ([], [Query.completion cmd])
  | QueryOutcome.ok (r :: _) =>
      (replaceChar r.response quoteChar [], [Query.completion cmd])

/-- The literal before `{chat_history}` in the final prompt (app.py
lines 252-264). -/
def promptP1 : List Char :=
  ("\n       You are an expert chat assistant that extracts information from the CONTEXT provided\n       between <context> and </context> tags.\n       You offer a chat experience considering the information included in the CHAT HISTORY\n       provided between <chat_history> and </chat_history> tags.\n       When answering the question contained between <question> and </question> tags,\n       be concise and do not hallucinate. \n       If you donâ€™t have the information just say so.\n       \n       Do not mention the CONTEXT used in your answer.\n       Do not mention the CHAT HISTORY used in your answer.\n       \n       <chat_history>\n       ").toList

/-- The literal between `{chat_history}` and `{prompt_context}` in the final
prompt (app.py lines 265-267). -/
def promptP2 : List Char :=
  ("\n       </chat_history>\n       <context>          \n       ").toList

/-- The literal between `{prompt_context}` and `{myquestion}` in the final
prompt (app.py lines 269-270). -/
def promptP3 : List Char :=
  ("\n       </context>\n       <question>  \n       ").toList

/-- The literal after `{myquestion}` in the final prompt (app.py
lines 272-274). -/
def promptP4 : List Char :=
  ("\n       </question>\n       Answer:\n       ").toList

/-- app.py lines 252-274: the final prompt f-string, as a function of the
three interpolated values. -/
def create_prompt_template (chat_history prompt_context myquestion : List Char) :
    List Char :=
  promptP1 ++ chat_history ++ promptP2 ++ prompt_context ++ promptP3 ++
    myquestion ++ promptP4

/-- The backslash character. -/
def backslashChar : Char := Char.ofNat 92

/-- The double-quote character. -/
def dquoteChar : Char := Char.ofNat 34

/-- Python `repr` of a string, as f-string formatting of a list applies to
each element: single-quoted, except double-quoted when the text contains a
single quote and no double quote; contained single quotes are
backslash-escaped in the single-quoted form. -/
def pyReprStr (s : List Char) : List Char :=
  if quoteChar ∈ s ∧ dquoteChar ∉ s then dquoteChar :: (s ++ [dquoteChar])
  else quoteChar :: (replaceChar s quoteChar [backslashChar, quoteChar] ++ [quoteChar])

/-- Python `str` of a list of strings, as the f-string `{chat_history}`
renders the history list: `['a', 'b']`. -/
def pyStrList (l : List (List Char)) : List Char :=
  ("[").toList ++ List.intercalate (", ").toList (l.map pyReprStr) ++ ("]").toList

/-- app.py lines 234-275, `create_prompt`: with history enabled and a
non-empty sliding window, summarize the question with the history and
retrieve chunks for the summary; otherwise retrieve chunks for the question
itself.  The f-string receives the history list (rendered by `str`) or the
empty string when history is disabled.  The second component is the log of
queries executed during prompt creation. -/
def create_prompt (cfg : Config) (env : Env) (messages : List Message)
    (myquestion : List Char) : List Char × List Query :=
  if cfg.use_chat_history then
    match get_chat_history messages with
    | [] =>
        let res := get_similar_chunks env myquestion
        (create_prompt_template (pyStrList []) res.1 myquestion, res.2)
    | h :: t =>
        let sres := summarize_question_with_history cfg env (h :: t) myquestion
        let cres := get_similar_chunks env sres.1
        (create_prompt_template (pyStrList (h :: t)) cres.1 myquestion,
          sres.2 ++ cres.2)
  else
    let res := get_similar_chunks env myquestion
    (create_prompt_template [] res.1 myquestion, res.2)

/-- app.py lines 279-301, `complete`: build the prompt, escape single quotes,
issue one completion query; return the fetched rows, or `None` when no rows
came back or the query raised (the error is shown to the user). -/
def complete (cfg : Config) (env : Env) (messages : List Message)
    (myquestion : List Char) : Option (List RespRow) × List Query :=
  let pres := create_prompt cfg env messages myquestion
  let prompt2 := replaceChar pres.1 quoteChar twoQuotes
  let cmd := complete_cmd cfg.model_name prompt2
  match env.completionOutcome with
  | QueryOutcome.err _ => (none, pres.2 ++ [Query.completion cmd])
  | QueryOutcome.ok [] => (none, pres.2 ++ [Query.completion cmd])
  | QueryOutcome.ok (r :: rest) =>
      (some (r :: rest), pres.2 ++ [Query.completion cmd])

/-- The outcome of one chat turn: the conversation afterwards and the
exception propagating out of the turn, if any. -/
structure TurnResult where
  messages : List Message
  raised : Option (List Char)
  deriving DecidableEq

/-- app.py lines 76-94, the chat-turn block of `main`: append the user's
question, strip single quotes from it, call `complete`; when a non-empty
result came back, strip quotes from its first row's `RESPONSE` and append it
as the assistant message.  Otherwise the code displays an error in the
placeholder but falls through to line 94, which reads the never-assigned
local `res_text` and raises `UnboundLocalError`, so nothing is appended and
the exception leaves the turn unhandled. -/
def mainChatTurn (cfg : Config) (env : Env) (messages : List Message)
    (question : List Char) : TurnResult × List Query :=
  let messages1 := messages ++ [⟨Role.user, question⟩]
  let question2 := replaceChar question quoteChar []
  let cres := complete cfg env messages1 question2
  match cres.1 with
  | some (r :: _) =>
      (⟨messages1 ++ [⟨Role.assistant, replaceChar r.response quoteChar []⟩],
        none⟩, cres.2)
  | some [] => (⟨messages1, some ("UnboundLocalError").toList⟩, cres.2)
  | none => (⟨messages1, some ("UnboundLocalError").toList⟩, cres.2)

/-- Whether a conversation alternates user/assistant pairs, allowing a single
trailing user message whose turn is pending. -/
def wellFormedConversation : List Message → Bool
  | [] => true
  | m :: rest =>
      match m.role, rest with
      | Role.user, [] => true
      | Role.user, m2 :: rest2 =>
          match m2.role with
          | Role.assistant => wellFormedConversation rest2
          | Role.user => false
      | Role.assistant, _ => false

/-- The point at which one run of `upload_to_snowflake`'s body fails, if
any: creating the temporary file, writing to it, or executing the PUT. -/
inductive UploadFail where
  | noFail
  | createTemp
  | write
  | put
  deriving DecidableEq

/-- Observable state during `upload_to_snowflake`: whether the scratch file
exists on disk, whether the local `temp_file_path` was assigned, and whether
`cursor.execute(put_command)` was invoked. -/
structure PyFileState where
  tempFileExists : Bool
  tempPathBound : Bool
  putExecuted : Bool
  deriving DecidableEq

/-- The outcome of a call to `upload_to_snowflake`: final scratch-file
existence, whether PUT was invoked, the exception leaving the call if any,
and whether an error was shown to the user. -/
structure UploadResult where
  tempFileExists : Bool
  putExecuted : Bool
  raised : Option (List Char)
  errorShown : Bool
  deriving DecidableEq

/-- app.py lines 116-128, the `try` block of `upload_to_snowflake`:
`NamedTemporaryFile(delete=False)` creates the scratch file; the write
happens before `temp_file_path = temp_file.name`; leaving the `with` block
keeps the file (delete=False); then the PUT executes and `os.remove` deletes
the file.  Each step's failure aborts the block with the exception and the
state reached so far. -/
def uploadTry (fail : UploadFail) : Option (List Char) × PyFileState :=
  if fail = UploadFail.createTemp then
    (some ("OSError").toList, ⟨false, false, false⟩)
  else if fail = UploadFail.write then
    (some ("OSError").toList, ⟨true, false, false⟩)
  else if fail = UploadFail.put then
    (some ("ProgrammingError").toList, ⟨true, true, true⟩)
  else
    (none, ⟨false, true, true⟩)

/-- app.py lines 131-133, the `finally` block: evaluate
`os.path.exists(temp_file_path)` — a `NameError` when `temp_file_path` was
never assigned — and remove the file when it exists. -/
def uploadFinally (s : PyFileState) : Option (List Char) × PyFileState :=
  if s.tempPathBound then
    (none, ⟨false, s.tempPathBound, s.putExecuted⟩)
  else
    (some ("NameError").toList, s)

/-- app.py lines 110-135, `upload_to_snowflake` (invoked with both arguments):
run the `try` block; the `except` clause shows the error and swallows the
exception; the `finally` block runs last and its own exception (if any)
propagates out of the call. -/
def upload_to_snowflake (cursorLive : Bool) (fail : UploadFail) : UploadResult :=
  if cursorLive then
    let tryRes := uploadTry fail
    let errorShown := tryRes.1.isSome
    let finRes := uploadFinally tryRes.2
    ⟨finRes.2.tempFileExists, finRes.2.putExecuted, finRes.1, errorShown⟩
  else
    ⟨false, false, none, true⟩

/-- app.py line 110: `upload_to_snowflake` declares two required positional
parameters, `uploaded_file` and `cursor`. -/
def upload_required_param_count : Nat := 2

/-- app.py line 51: `main` calls `upload_to_snowflake(uploaded_file)` with a
single argument. -/
def upload_call_arg_count : Nat := 1

/-- Python call semantics for `upload_to_snowflake`: when the argument count
differs from the declared required parameter count, the call raises
`TypeError` before the body runs. -/
def call_upload_to_snowflake (argCount : Nat) (cursorLive : Bool)
    (fail : UploadFail) : UploadResult :=
  if argCount = upload_required_param_count then upload_to_snowflake cursorLive fail
  else ⟨false, false, some ("TypeError").toList, false⟩

/-- app.py lines 49-54, the upload section of `main`: call the handler with
one argument inside `try`; any exception is shown as
`Error uploading file: ...`, otherwise a success message is shown. -/
def main_upload_section (cursorLive : Bool) (fail : UploadFail) : List Char :=
  let res := call_upload_to_snowflake upload_call_arg_count cursorLive fail
  match res.raised with
  | some e => ("Error uploading file: ").toList ++ e
  | none => ("File uploaded successfully!").toList


/-- Concrete configuration used in counterexamples: chat history disabled. -/
def cfgNoHist : Config := ⟨("mistral-large").toList, false, false⟩

/-- Environment in which the final completion query fails. -/
def envFailCompletion : Env :=
  ⟨QueryOutcome.ok [], QueryOutcome.ok [], QueryOutcome.err ("network").toList⟩

/-- Environment in which the final completion query returns one row. -/
def envOKCompletion : Env :=
  ⟨QueryOutcome.ok [], QueryOutcome.ok [], QueryOutcome.ok [⟨("The answer").toList⟩]⟩

/-- A fetched result set whose single chunk text is exactly one single
quote. -/
def rowsQuoteOnly : List Row := [⟨[quoteChar], ("doc1.pdf").toList⟩]

/-- Environment in which the similarity query returns `rowsQuoteOnly`. -/
def envQuoteChunk : Env :=
  ⟨QueryOutcome.ok [], QueryOutcome.ok rowsQuoteOnly, QueryOutcome.ok []⟩

/-- A fetched result set of two quote-free chunks. -/
def rowsPlain : List Row :=
  [⟨("ab").toList, ("p1").toList⟩, ⟨("cd").toList, ("p2").toList⟩]

/-- Environment in which the similarity query returns `rowsPlain`. -/
def envPlainRows : Env :=
  ⟨QueryOutcome.ok [], QueryOutcome.ok rowsPlain, QueryOutcome.ok []⟩

/-- Environment in which the similarity query returns zero rows. -/
def envNoRows : Env :=
  ⟨QueryOutcome.ok [], QueryOutcome.ok [], QueryOutcome.ok []⟩

/-- A fetched result set whose single chunk contains an interior single
quote. -/
def rowsWithQuote : List Row := [⟨('a' :: quoteChar :: 'b' :: []), ("p").toList⟩]

/-- Environment in which the similarity query returns `rowsWithQuote`. -/
def envRowsWithQuote : Env :=
  ⟨QueryOutcome.ok [], QueryOutcome.ok rowsWithQuote, QueryOutcome.ok []⟩

/-- A three-message conversation: two completed turns and one pending
question. -/
def msgs3 : List Message :=
  [⟨Role.user, ("a").toList⟩, ⟨Role.assistant, ("b").toList⟩,
    ⟨Role.user, ("c").toList⟩]

theorem quote_not_mem_strip (s : List Char) : quoteChar ∉ replaceChar s quoteChar [] := by
  induction s with
  | nil => simp [replaceChar]
  | cons a t ih =>
      by_cases h : a = quoteChar
      · simpa [replaceChar, h] using ih
      · intro hmem
        unfold replaceChar at hmem
        rw [if_neg h] at hmem
        rcases List.mem_cons.mp hmem with h1 | h2
        · exact h h1.symm
        · exact ih h2

theorem beginsWith_refl (s : List Char) : beginsWith s s = true := by
  induction s with
  | nil => rfl
  | cons a t ih => simp [beginsWith, ih]

theorem beginsWith_extend (s b c : List Char) (h : beginsWith s b = true) :
    beginsWith s (b ++ c) = true := by
  induction s generalizing b with
  | nil => rfl
  | cons a t ih =>
      cases b with
      | nil => simp [beginsWith] at h
      | cons x b2 =>
          rw [beginsWith, Bool.and_eq_true] at h
          simpa [beginsWith, h.1] using ih b2 h.2

theorem hasSub_nil (big : List Char) : hasSub [] big = true := by
  cases big with
  | nil => rfl
  | cons b t => simp [hasSub, beginsWith]

theorem hasSub_self (s : List Char) : hasSub s s = true := by
  cases s with
  | nil => rfl
  | cons a t => simp [hasSub, beginsWith_refl]

theorem hasSub_append_of_left (a b s : List Char) (h : hasSub s a = true) :
    hasSub s (a ++ b) = true := by
  induction a with
  | nil =>
      have : s = [] := by
        cases s with
        | nil => rfl
        | cons x t => simp [hasSub, beginsWith] at h
      rw [this]
      exact hasSub_nil _
  | cons x t ih =>
      rw [hasSub, Bool.or_eq_true] at h
      rcases h with h | h
      · have := beginsWith_extend s (x :: t) b h
        simp [hasSub]
        left
        simpa using this
      · simp [hasSub]
        right
        exact ih h

theorem hasSub_append_of_right (a b s : List Char) (h : hasSub s b = true) :
    hasSub s (a ++ b) = true := by
  induction a with
  | nil => simpa using h
  | cons x t ih =>
      simp [hasSub]
      right
      simpa using ih

theorem hasSub_of_mem_flatten (l : List Char) (L : List (List Char)) (h : l ∈ L) :
    hasSub l L.flatten = true := by
  induction L with
  | nil => simp at h
  | cons x t ih =>
      rcases List.mem_cons.mp h with h1 | h2
      · subst h1
        rw [List.flatten_cons]
        exact hasSub_append_of_left _ _ _ (hasSub_self l)
      · rw [List.flatten_cons]
        exact hasSub_append_of_right _ _ _ (ih h2)


theorem filterMap_getElem_range' (l : List (List Char)) (a n : Nat)
    (h : a + n ≤ l.length) :
    (List.range' a n).filterMap (fun i => l[i]?) = (l.drop a).take n := by
  induction n generalizing a with
  | zero => simp
  | succ m ih =>
      have ha : a < l.length := by omega
      rw [List.range'_succ, List.filterMap_cons,
        List.getElem?_eq_getElem ha, List.drop_eq_getElem_cons ha]
      simp only [Option.isSome_some]
      rw [List.take_succ_cons]
      have := ih (a + 1) (by omega)
      rw [this]

theorem range_drop (a b : Nat) (h : a ≤ b) :
    (List.range b).drop a = List.range' a (b - a) := by
  rw [List.range_eq_range']
  have hb : b = (b - a) + a := by omega
  rw [hb]
  have happ := List.range'_append 0 a (b - a) 1
  simp only [Nat.zero_add, Nat.one_mul] at happ
  rw [← happ]
  have hlen : (List.range' 0 a).length = a := List.length_range' 0 1 a
  calc (List.range' 0 a ++ List.range' a (b - a)).drop a
      = (List.range' 0 a ++ List.range' a (b - a)).drop (List.range' 0 a).length := by
        rw [hlen]
    _ = List.range' a (b - a) := List.drop_left _ _
    _ = List.range' a ((b - a) + a - a) := by
        congr 1
        omega

theorem get_chat_history_eq (messages : List Message) :
    get_chat_history messages =
      ((messages.take (messages.length - 1)).drop
        (messages.length - slide_window)).map Message.content := by
  unfold get_chat_history
  have hle : messages.length - slide_window ≤ messages.length - 1 := by
    simp only [slide_window]
    omega
  rw [range_drop _ _ hle]
  have hfun : (fun i : Nat => (messages[i]?).map Message.content) =
      fun i : Nat => (messages.map Message.content)[i]? := by
    funext i
    rw [List.getElem?_map]
  rw [hfun]
  rw [filterMap_getElem_range' (messages.map Message.content) _ _
    (by simp only [List.length_map]; omega)]
  rw [List.drop_take, List.map_take, List.map_drop]


theorem summarize_fst_quote_free (cfg : Config) (env : Env)
    (ch : List (List Char)) (q : List Char) :
    quoteChar ∉ (summarize_question_with_history cfg env ch q).1 := by
  rcases env with ⟨so, ro, co⟩
  cases so with
  | err e => simp [summarize_question_with_history]
  | ok rows =>
      cases rows with
      | nil => simp [summarize_question_with_history]
      | cons r rest =>
          simpa [summarize_question_with_history] using quote_not_mem_strip r.response

theorem summarize_snd_no_retrieval (cfg : Config) (env : Env)
    (ch : List (List Char)) (q s : List Char) :
    Query.retrieval s ∉ (summarize_question_with_history cfg env ch q).2 := by
  rcases env with ⟨so, ro, co⟩
  cases so with
  | err e => simp [summarize_question_with_history]
  | ok rows => cases rows <;> simp [summarize_question_with_history]

theorem get_similar_chunks_snd (env : Env) (q : List Char) :
    (get_similar_chunks env q).2 = [Query.retrieval q] := by
  rcases env with ⟨so, ro, co⟩
  cases ro <;> rfl

theorem create_prompt_retrieval_arg (cfg : Config) (env : Env)
    (messages : List Message) (q s : List Char)
    (hmem : Query.retrieval s ∈ (create_prompt cfg env messages q).2) :
    s = q ∨
      s = (summarize_question_with_history cfg env (get_chat_history messages) q).1 := by
  by_cases hu : cfg.use_chat_history
  · cases hch : get_chat_history messages with
    | nil =>
        left
        simp only [create_prompt, hu, if_true, hch, get_similar_chunks_snd] at hmem
        rcases List.mem_singleton.mp hmem with h1
        exact (Query.retrieval.injEq _ _).mp h1
    | cons h t =>
        simp only [create_prompt, hu, if_true, hch, get_similar_chunks_snd,
          List.mem_append] at hmem
        rcases hmem with h1 | h2
        · exact absurd h1 (summarize_snd_no_retrieval cfg env (h :: t) q s)
        · right
          rcases List.mem_singleton.mp h2 with h3
          exact (Query.retrieval.injEq _ _).mp h3
  · left
    simp only [create_prompt, hu, if_false, get_similar_chunks_snd] at hmem
    rcases List.mem_singleton.mp hmem with h1
    exact (Query.retrieval.injEq _ _).mp h1

theorem complete_snd_retrieval (cfg : Config) (env : Env)
    (messages : List Message) (q s : List Char)
    (hmem : Query.retrieval s ∈ (complete cfg env messages q).2) :
    Query.retrieval s ∈ (create_prompt cfg env messages q).2 := by
  rcases hco : env.completionOutcome with rows | e
  · rcases rows with _ | ⟨r, rest⟩ <;>
      · simp only [complete, hco, List.mem_append] at hmem
        rcases hmem with h1 | h2
        · exact h1
        · simp at h2
  · simp only [complete, hco, List.mem_append] at hmem
    rcases hmem with h1 | h2
    · exact h1
    · simp at h2

theorem mainChatTurn_snd (cfg : Config) (env : Env) (messages : List Message)
    (question : List Char) :
    (mainChatTurn cfg env messages question).2 =
      (complete cfg env (messages ++ [⟨Role.user, question⟩])
        (replaceChar question quoteChar [])).2 := by
  cases hc : (complete cfg env (messages ++ [⟨Role.user, question⟩])
      (replaceChar question quoteChar [])).1 with
  | none => simp [mainChatTurn, hc]
  | some rows => cases rows <;> simp [mainChatTurn, hc]



theorem hasSub_template_of_p1 (s h c q : List Char)
    (hp : hasSub s promptP1 = true) :
    hasSub s (create_prompt_template h c q) = true := by
  unfold create_prompt_template
  exact hasSub_append_of_left _ _ _ (hasSub_append_of_left _ _ _
    (hasSub_append_of_left _ _ _ (hasSub_append_of_left _ _ _
      (hasSub_append_of_left _ _ _ (hasSub_append_of_left _ _ _ hp)))))

theorem hasSub_template_of_p2 (s h c q : List Char)
    (hp : hasSub s promptP2 = true) :
    hasSub s (create_prompt_template h c q) = true := by
  unfold create_prompt_template
  exact hasSub_append_of_left _ _ _ (hasSub_append_of_left _ _ _
    (hasSub_append_of_left _ _ _ (hasSub_append_of_left _ _ _
      (hasSub_append_of_right _ _ _ hp))))

theorem hasSub_template_of_p3 (s h c q : List Char)
    (hp : hasSub s promptP3 = true) :
    hasSub s (create_prompt_template h c q) = true := by
  unfold create_prompt_template
  exact hasSub_append_of_left _ _ _ (hasSub_append_of_left _ _ _
    (hasSub_append_of_right _ _ _ hp))

theorem hasSub_template_of_p4 (s h c q : List Char)
    (hp : hasSub s promptP4 = true) :
    hasSub s (create_prompt_template h c q) = true := by
  unfold create_prompt_template
  exact hasSub_append_of_right _ _ _ hp

/-- C1: the claim states that after the completion step finishes — even when
the service returned an empty or missing result — an answer or error
surrogate is appended to the conversation and the turn completes without an
unhandled exception.  The code violates this: evaluated at the failing input
(empty conversation, question "hi", completion query failing so `complete`
returns `None`), the turn raises `UnboundLocalError` at the append of the
never-assigned `res_text`, and no assistant message or surrogate is appended. -/
theorem C1_missing_response_unhandled :
    (mainChatTurn cfgNoHist envFailCompletion [] ("hi").toList).1 =
      ⟨[⟨Role.user, ("hi").toList⟩], some ("UnboundLocalError").toList⟩ := by
  rfl

/-- C2: `upload_to_snowflake` declares two required parameters but the
presentation loop calls it with one, so for every cursor state and every
possible body behaviour the call raises `TypeError` before the body runs:
the PUT command is never executed, and `main` catches the exception and
shows an upload error message. -/
theorem C2_upload_arity (cursorLive : Bool) (fail : UploadFail) :
    (call_upload_to_snowflake upload_call_arg_count cursorLive fail).putExecuted = false ∧
    (call_upload_to_snowflake upload_call_arg_count cursorLive fail).raised =
      some ("TypeError").toList ∧
    main_upload_section cursorLive fail = ("Error uploading file: TypeError").toList :=
  ⟨rfl, rfl, rfl⟩

/-- C3: over a conversation of length `L ≥ 1`, `get_chat_history` returns at
most `min (L - 1) 7` entries, and the entries are exactly the contents of the
consecutive messages from index `max 0 (L - slide_window)` up to but not
including the most recent (pending) message, in insertion order. -/
theorem C3_sliding_window (messages : List Message) (h : 1 ≤ messages.length) :
    (get_chat_history messages).length ≤ min (messages.length - 1) 7 ∧
    get_chat_history messages =
      ((messages.take (messages.length - 1)).drop
        (messages.length - slide_window)).map Message.content := by
  refine ⟨?_, get_chat_history_eq messages⟩
  rw [get_chat_history_eq]
  simp only [List.length_map, List.length_drop, List.length_take, slide_window]
  have h1 : min (messages.length - 1) messages.length = messages.length - 1 :=
    Nat.min_eq_left (Nat.sub_le _ _)
  rw [h1]
  exact le_min (by omega) (by omega)

/-- C3 witness: the theorem applied to a concrete three-message conversation. -/
theorem C3_sliding_window_witness :
    1 ≤ msgs3.length ∧
    ((get_chat_history msgs3).length ≤ min (msgs3.length - 1) 7 ∧
     get_chat_history msgs3 =
       ((msgs3.take (msgs3.length - 1)).drop
         (msgs3.length - slide_window)).map Message.content) :=
  ⟨by decide, C3_sliding_window msgs3 (by decide)⟩

/-- C4 counterexample: when the write to the scratch file fails (a failure
that occurs before `temp_file_path` is bound), the temporary file still
exists after the call finishes, and the cleanup itself raises `NameError`
out of the `finally` block — refuting the claim that the scratch file is
gone on every failure path. -/
theorem C4_cleanup_counterexample :
    (upload_to_snowflake true UploadFail.write).tempFileExists = true ∧
    (upload_to_snowflake true UploadFail.write).raised =
      some ("NameError").toList :=
  ⟨rfl, rfl⟩

/-- C4 amended: on the success path and on failure paths that occur after
`temp_file_path` is bound, the scratch file does not exist after
`upload_to_snowflake` returns and no exception leaves the call. -/
theorem C4_cleanup_amended (fail : UploadFail)
    (h1 : fail ≠ UploadFail.createTemp) (h2 : fail ≠ UploadFail.write) :
    (upload_to_snowflake true fail).tempFileExists = false ∧
    (upload_to_snowflake true fail).raised = none := by
  cases fail with
  | createTemp => exact absurd rfl h1
  | write => exact absurd rfl h2
  | noFail => exact ⟨rfl, rfl⟩
  | put => exact ⟨rfl, rfl⟩

/-- C4 amended witness: the amended theorem applied to the failing-PUT path. -/
theorem C4_cleanup_amended_witness :
    (UploadFail.put ≠ UploadFail.createTemp) ∧ (UploadFail.put ≠ UploadFail.write) ∧
    ((upload_to_snowflake true UploadFail.put).tempFileExists = false ∧
     (upload_to_snowflake true UploadFail.put).raised = none) :=
  ⟨by decide, by decide,
    C4_cleanup_amended UploadFail.put (by decide) (by decide)⟩

/-- C5 counterexample: `create_prompt` is not free of query execution — at a
concrete input its query log is non-empty (it executes the similarity
retrieval before assembling the prompt). -/
theorem C5_pure_counterexample :
    (create_prompt cfgNoHist envOKCompletion [] ("q").toList).2 ≠ [] := by
  decide

/-- C5 amended: `create_prompt` always executes at least one query (retrieval,
possibly preceded by summarization), and the string it returns is the pure
four-segment template `create_prompt_template` applied to the computed chat
history rendering, the retrieved context, and the question; the template
contains the chat-history, context, question and answer-cue tags and the
anti-hallucination and do-not-mention instructions. -/
theorem C5_template_amended (cfg : Config) (env : Env) (messages : List Message)
    (q : List Char) :
    (create_prompt cfg env messages q).2 ≠ [] ∧
    (∃ h c, (create_prompt cfg env messages q).1 = create_prompt_template h c q) ∧
    (∀ h c,
      hasSub ("<chat_history>").toList (create_prompt_template h c q) = true ∧
      hasSub ("</chat_history>").toList (create_prompt_template h c q) = true ∧
      hasSub ("<context>").toList (create_prompt_template h c q) = true ∧
      hasSub ("</context>").toList (create_prompt_template h c q) = true ∧
      hasSub ("<question>").toList (create_prompt_template h c q) = true ∧
      hasSub ("</question>").toList (create_prompt_template h c q) = true ∧
      hasSub ("Answer:").toList (create_prompt_template h c q) = true ∧
      hasSub ("be concise and do not hallucinate.").toList
        (create_prompt_template h c q) = true ∧
      hasSub ("Do not mention the CONTEXT used in your answer.").toList
        (create_prompt_template h c q) = true ∧
      hasSub ("Do not mention the CHAT HISTORY used in your answer.").toList
        (create_prompt_template h c q) = true) := by
  refine ⟨?_, ?_, ?_⟩
  · by_cases hu : cfg.use_chat_history
    · cases hch : get_chat_history messages with
      | nil => simp [create_prompt, hu, hch, get_similar_chunks_snd]
      | cons h t => simp [create_prompt, hu, hch, get_similar_chunks_snd]
    · simp [create_prompt, hu, get_similar_chunks_snd]
  · by_cases hu : cfg.use_chat_history
    · cases hch : get_chat_history messages with
      | nil =>
          exact ⟨pyStrList [], (get_similar_chunks env q).1, by
            simp [create_prompt, hu, hch]⟩
      | cons h t =>
          exact ⟨pyStrList (h :: t),
            (get_similar_chunks env
              (summarize_question_with_history cfg env (h :: t) q).1).1, by
            simp [create_prompt, hu, hch]⟩
    · exact ⟨[], (get_similar_chunks env q).1, by simp [create_prompt, hu]⟩
  · intro h c
    exact ⟨hasSub_template_of_p1 _ _ _ _ (by decide),
      hasSub_template_of_p2 _ _ _ _ (by decide),
      hasSub_template_of_p2 _ _ _ _ (by decide),
      hasSub_template_of_p3 _ _ _ _ (by decide),
      hasSub_template_of_p3 _ _ _ _ (by decide),
      hasSub_template_of_p4 _ _ _ _ (by decide),
      hasSub_template_of_p4 _ _ _ _ (by decide),
      hasSub_template_of_p1 _ _ _ _ (by decide),
      hasSub_template_of_p1 _ _ _ _ (by decide),
      hasSub_template_of_p1 _ _ _ _ (by decide)⟩


/-- C6 counterexample: the returned string is not always the concatenation of
the returned chunk texts — when the single returned chunk's entire text is
one single-quote character, the pandas whole-value replacement drops it, so
the function returns the empty string while the concatenation of the chunk
texts is `"'"`. -/
theorem C6_concat_counterexample :
    (get_similar_chunks envQuoteChunk ("q").toList).1 ≠
      (rowsQuoteOnly.map Row.chunk).flatten := by
  decide

/-- C6 amended: `get_similar_chunks` issues a ranking query ordered descending
by similarity and limited to `num_chunks = 3` rows; it returns the empty
string on zero rows, and the concatenation (no separator) of the returned
chunk texts whenever no chunk's entire text equals a single quote character
(a chunk equal to `"'"` contributes the empty string instead). -/
theorem C6_retrieval_amended :
    num_chunks = 3 ∧
    (∀ q : List Char,
      hasSub ("ORDER BY similarity DESC").toList (get_similar_chunks_cmd q) = true ∧
      hasSub (("LIMIT ").toList ++ natStr num_chunks) (get_similar_chunks_cmd q) = true) ∧
    (∀ (env : Env) (q : List Char),
      env.retrievalOutcome = QueryOutcome.ok [] → (get_similar_chunks env q).1 = []) ∧
    (∀ (env : Env) (q : List Char) (rows : List Row),
      env.retrievalOutcome = QueryOutcome.ok rows →
      (∀ r ∈ rows, r.chunk ≠ [quoteChar]) →
      (get_similar_chunks env q).1 = (rows.map Row.chunk).flatten) := by
  refine ⟨rfl, ?_, ?_, ?_⟩
  · intro q
    unfold get_similar_chunks_cmd
    rw [List.append_assoc, List.append_assoc, List.append_assoc]
    constructor
    · exact hasSub_append_of_right _ _ _ (hasSub_append_of_right _ _ _ (by decide))
    · exact hasSub_append_of_right _ _ _ (hasSub_append_of_right _ _ _ (by decide))
  · intro env q h
    rcases env with ⟨so, ro, co⟩
    simp only at h
    subst h
    simp [get_similar_chunks, pandasReplaceValue]
  · intro env q rows h hrows
    rcases env with ⟨so, ro, co⟩
    simp only at h
    subst h
    simp only [get_similar_chunks, pandasReplaceValue]
    have hcong : ∀ v ∈ rows.map Row.chunk,
        (if v = [quoteChar] then [] else v) = v := by
      intro v hv
      rcases List.mem_map.mp hv with ⟨r, hr, rfl⟩
      rw [if_neg (hrows r hr)]
    rw [List.map_congr_left hcong, List.map_id']

/-- C6 amended witness: the amended theorem applied to a zero-row environment
and to an environment returning two quote-free chunks. -/
theorem C6_retrieval_amended_witness :
    (get_similar_chunks envNoRows ("q").toList).1 = [] ∧
    (get_similar_chunks envPlainRows ("q").toList).1 =
      (rowsPlain.map Row.chunk).flatten :=
  ⟨C6_retrieval_amended.2.2.1 envNoRows (("q").toList) rfl,
    C6_retrieval_amended.2.2.2 envPlainRows (("q").toList) rowsPlain rfl (by decide)⟩

/-- C7: `summarize_question_with_history` returns the empty string whenever
the completion query raised, and otherwise returns either the empty string
(no rows) or the first row's response with single quotes stripped; being a
total function of the query outcome, it propagates no exception (the source
wraps the whole remote call in try/except and returns "" from the except
branch). -/
theorem C7_summarize_result (cfg : Config) (ro : QueryOutcome Row)
    (co : QueryOutcome RespRow) (ch : List (List Char)) (q e : List Char)
    (rows : List RespRow) :
    (summarize_question_with_history cfg ⟨QueryOutcome.err e, ro, co⟩ ch q).1 = [] ∧
    ((summarize_question_with_history cfg ⟨QueryOutcome.ok rows, ro, co⟩ ch q).1 = [] ∨
      ∃ r rest, rows = r :: rest ∧
        (summarize_question_with_history cfg ⟨QueryOutcome.ok rows, ro, co⟩ ch q).1 =
          replaceChar r.response quoteChar []) := by
  constructor
  · simp [summarize_question_with_history]
  · cases rows with
    | nil =>
        left
        simp [summarize_question_with_history]
    | cons r rest =>
        right
        exact ⟨r, rest, rfl, by simp [summarize_question_with_history]⟩

/-- C8: every similarity-search query issued during a chat turn carries a
question slot from which every single-quote character has been removed —
either the user's question stripped at main line 82, or a summarizer response
stripped at line 220 (or the empty string). -/
theorem C8_no_quote_reaches_retrieval (cfg : Config) (env : Env)
    (messages : List Message) (question s : List Char)
    (hmem : Query.retrieval s ∈ (mainChatTurn cfg env messages question).2) :
    quoteChar ∉ s := by
  rw [mainChatTurn_snd] at hmem
  have h2 := complete_snd_retrieval _ _ _ _ _ hmem
  rcases create_prompt_retrieval_arg _ _ _ _ _ h2 with h3 | h3
  · rw [h3]
    exact quote_not_mem_strip _
  · rw [h3]
    exact summarize_fst_quote_free _ _ _ _

/-- C8 witness: the theorem applied to a concrete turn whose question
contains a single quote. -/
theorem C8_no_quote_reaches_retrieval_witness :
    quoteChar ∉ replaceChar ('h' :: quoteChar :: 'i' :: []) quoteChar [] :=
  C8_no_quote_reaches_retrieval cfgNoHist envOKCompletion []
    ('h' :: quoteChar :: 'i' :: [])
    (replaceChar ('h' :: quoteChar :: 'i' :: []) quoteChar []) (by decide)

/-- C9: the claim states the user/assistant alternation invariant is
preserved by every turn, including turns where the completion service
returns an empty or missing result.  The code violates it: a turn whose
completion fails leaves the user question unanswered (the turn aborts with
`UnboundLocalError` before appending any assistant message), and after the
following successful turn the conversation holds two consecutive user
messages. -/
theorem C9_alternation_broken :
    wellFormedConversation
        ((mainChatTurn cfgNoHist envFailCompletion [] ("q1").toList).1.messages) = true ∧
    wellFormedConversation
        ((mainChatTurn cfgNoHist envOKCompletion
          ((mainChatTurn cfgNoHist envFailCompletion [] ("q1").toList).1.messages)
          ("q2").toList).1.messages) = false :=
  ⟨rfl, rfl⟩

/-- C10: the pandas replace in `get_similar_chunks` is whole-value: the result
is the concatenation in which exactly the chunks whose entire text is `"'"`
are replaced by the empty string, and every other chunk's text — interior
single quotes included — appears verbatim (contiguously) in the returned
string. -/
theorem C10_whole_value_replace (env : Env) (q : List Char) (rows : List Row)
    (h : env.retrievalOutcome = QueryOutcome.ok rows) :
    (get_similar_chunks env q).1 =
      ((rows.map Row.chunk).map
        (fun c => if c = [quoteChar] then [] else c)).flatten ∧
    ∀ r ∈ rows, r.chunk ≠ [quoteChar] →
      hasSub r.chunk ((get_similar_chunks env q).1) = true := by
  rcases env with ⟨so, ro, co⟩
  simp only at h
  subst h
  have heq : (get_similar_chunks ⟨so, QueryOutcome.ok rows, co⟩ q).1 =
      ((rows.map Row.chunk).map
        (fun c => if c = [quoteChar] then [] else c)).flatten := by
    simp [get_similar_chunks, pandasReplaceValue]
  refine ⟨heq, ?_⟩
  intro r hr hne
  have hmem1 : r.chunk ∈ rows.map Row.chunk := List.mem_map_of_mem _ hr
  have hmem2 : r.chunk ∈
      (rows.map Row.chunk).map (fun c => if c = [quoteChar] then [] else c) := by
    have hm := List.mem_map_of_mem (fun c => if c = [quoteChar] then [] else c) hmem1
    simpa [hne] using hm
  rw [heq]
  exact hasSub_of_mem_flatten _ _ hmem2

/-- C10 witness: the theorem applied to a result set whose single chunk
contains an interior quote; the chunk appears verbatim in the result. -/
theorem C10_whole_value_replace_witness :
    hasSub ('a' :: quoteChar :: 'b' :: [])
      ((get_similar_chunks envRowsWithQuote ("q").toList).1) = true :=
  (C10_whole_value_replace envRowsWithQuote (("q").toList) rowsWithQuote rfl).2
    ⟨('a' :: quoteChar :: 'b' :: []), ("p").toList⟩ (by decide) (by decide)

end ChatApp
